import Mathlib

/-!
Shallow embedding of `deeppavlov/models/kbqa/entity_linking.py` (class
`EntityLinker`) and proofs about the claims of the specification.

Python strings are Lean `String`s, Python `len` is the number of code
points, dictionaries are association lists looked up with `List.lookup`,
`list(set(...))` is `List.dedup`, `sorted(..., key, reverse=True)` is the
stable descending insertion sort `sortDesc`, and the fallible parts of the
code (`ZeroDivisionError`, `IndexError`, `UnboundLocalError`) are modelled
with `Except PyErr`.
-/

/-- Python `len` of a string: number of unicode code points. -/
def pyLen (s : String) : Nat := s.toList.length

/-- ASCII and Russian-alphabet case folding for one character, the part of
Python `str.lower` that the knowledge-base templates exercise. -/
def pyLowerChar (c : Char) : Char :=
  if 'A' ≤ c ∧ c ≤ 'Z' then Char.ofNat (c.toNat + 32)
  else if 'А' ≤ c ∧ c ≤ 'Я' then Char.ofNat (c.toNat + 32)
  else if c = 'Ё' then 'ё'
  else c

/-- Python `str.lower`, folding ASCII and Russian letters. -/
def pyLower (s : String) : String := String.mk (s.toList.map pyLowerChar)

/-- Helper for `pySplit`: accumulates the current field (reversed). -/
def pySplitAux : List Char → List Char → List String
  | [], acc => [String.mk acc.reverse]
  | c :: cs, acc =>
    if c = ' ' then String.mk acc.reverse :: pySplitAux cs []
    else pySplitAux cs (c :: acc)

/-- Python `s.split(' ')`: split on every single space, keeping empty fields. -/
def pySplit (s : String) : List String := pySplitAux s.toList []

/-- Python `' '.join(parts)`. -/
def pyJoin (sep : String) : List String → String
  | [] => ""
  | [x] => x
  | x :: y :: xs => x ++ sep ++ pyJoin sep (y :: xs)

/-- Boolean test that `l₁` occurs as a contiguous sublist of `l₂`. -/
def listInfix [DecidableEq α] (l₁ : List α) : List α → Bool
  | [] => l₁.isEmpty
  | a :: as => l₁.isPrefixOf (a :: as) || listInfix l₁ as

/-- Python `haystack.find(needle) > -1`: substring containment. -/
def pyContains (haystack needle : String) : Bool :=
  listInfix needle.toList haystack.toList

/-- Python `s.startswith(pre)`. -/
def pyStartsWith (s pre : String) : Bool :=
  pre.toList.isPrefixOf s.toList

/-- Python cross-type equality between an element of a mask produced by
`itertools.product('01', repeat=k)` — a one-character string `'0'` or `'1'` —
and the integer `0`.  In Python a `str` never compares equal to an `int`, so
`mask[i] == 0` is always `False` and the branch that keeps the original token
is dead code. -/
def pyCharEqIntZero (_c : Char) : Bool := false

/-- The mask tuples of `itertools.product('01', repeat=k)`, in product order
(first position varies slowest). -/
def pyMasks : Nat → List (List Char)
  | 0 => [[]]
  | n + 1 => ['0', '1'].flatMap fun c => (pyMasks n).map (c :: ·)

/-- Stable insertion of `x` into a list sorted descending by `key`:
`x` is placed before the first element whose key is `≤ key x`. -/
def insertDesc (key : α → Int) (x : α) : List α → List α
  | [] => [x]
  | y :: ys => if key y ≤ key x then x :: y :: ys else y :: insertDesc key x ys

/-- Python `sorted(l, key=key, reverse=True)`: stable descending sort. -/
def sortDesc (key : α → Int) : List α → List α
  | [] => []
  | x :: xs => insertDesc key x (sortDesc key xs)

/-- A candidate record stored in the name index: element 0 is the surface
form used for fuzzy re-scoring, element 1 the knowledge-base identifier,
element 2 the numeric rank score. -/
structure Candidate where
  e0 : String
  e1 : String
  e2 : Int
deriving DecidableEq, Repr

/-- A knowledge-base fact `(propertyId, valueId)`. -/
abbrev WikiFact := String × String

/-- The Python exceptions the embedded code can raise. -/
inductive PyErr where
  | zeroDivision
  | indexError
  | unboundLocal
deriving DecidableEq, Repr

/-- The `EntityLinker` object: the two read-only stores, the two external
collaborators (`pymorphy2` normal form and `fuzz.ratio`), and the
configuration flags of `__init__`. -/
structure EntityLinker where
  name_to_q : List (String × List Candidate)
  wikidata : List (String × List WikiFact)
  morph : String → String
  fuzz : String → String → Int
  lemmatize : Bool
  debug : Bool
  rule_filter_entities : Bool

namespace EntityLinker

/-- `find_candidate_entities`: exact lookup plus, for mentions of fewer than
6 tokens with lemmatization enabled, a lookup per mask of
`itertools.product('01', repeat=k)`.  Because the source compares the mask
character to the integer `0` (`mask[i] == 0`, see `pyCharEqIntZero`), every
mask reconstructs the fully lemmatized string. -/
def find_candidate_entities (L : EntityLinker) (entity : String) : List Candidate :=
  let base := (L.name_to_q.lookup entity).getD []
  let entity_split := pySplit entity
  if entity_split.length < 6 && L.lemmatize then
    let entity_lemm_tokens := entity_split.map L.morph
    base ++ (pyMasks entity_split.length).flatMap fun mask =>
      let entity_lemm := pyJoin " " ((List.range entity_split.length).map fun i =>
        if pyCharEqIntZero (mask.getD i '0') then entity_split.getD i ""
        else entity_lemm_tokens.getD i "")
      if entity_lemm ≠ entity then (L.name_to_q.lookup entity_lemm).getD [] else []
  else base

/-- `substring_entity_search`: every index key containing the lowercased
mention contributes all of its candidates. -/
def substring_entity_search (L : EntityLinker) (entity : String) : List Candidate :=
  let entity_lower := pyLower entity
  L.name_to_q.flatMap fun p =>
    if pyContains p.1 entity_lower then (L.name_to_q.lookup p.1).getD [] else []

/-- The loop body of `fuzzy_entity_search`.  Each iteration computes
`len(title) / word_length`, which raises `ZeroDivisionError` when
`word_length = 0`; the float comparisons `0.5 < ratio < 1.5` are modelled
exactly as `word_length < 2 * len(title) ∧ 2 * len(title) < 3 * word_length`. -/
def fuzzyLoop (L : EntityLinker) (entity : String) (word_length : Nat) :
    List (String × List Candidate) → Except PyErr (List (Candidate × Int))
  | [] => .ok []
  | p :: rest =>
    if word_length = 0 then .error .zeroDivision
    else
      let hits :=
        if word_length < 2 * pyLen p.1 ∧ 2 * pyLen p.1 < 3 * word_length then
          if 50 < L.fuzz p.1 entity then
            ((L.name_to_q.lookup p.1).getD []).map fun cand => (cand, L.fuzz entity cand.e0)
          else []
        else []
      match fuzzyLoop L entity word_length rest with
      | .error e => .error e
      | .ok tail => .ok (hits ++ tail)

/-- `fuzzy_entity_search`: scan every index key, pre-filter by length ratio,
score survivors against the mention, and pair accepted candidates with the
mention-vs-surface-field score. -/
def fuzzy_entity_search (L : EntityLinker) (entity : String) :
    Except PyErr (List (Candidate × Int)) :=
  fuzzyLoop L entity (pyLen entity) L.name_to_q

/-- `extract_triplets_from_wiki`: per identifier, its fact list when it is a
`wikidata` key and starts with `'Q'`, else the empty list. -/
def extract_triplets_from_wiki (L : EntityLinker) (entity_ids : List String) :
    List (List WikiFact) :=
  entity_ids.map fun entity_id =>
    if (L.wikidata.lookup entity_id).isSome && pyStartsWith entity_id "Q" then
      (L.wikidata.lookup entity_id).getD []
    else []

end EntityLinker

/-- The fixed template set of `filter_triplets`. -/
def what_is_templates : List String :=
  ["что такое", "что есть", "что означает", "что значит"]

/-- `filter_triplets` (static method): reads the first two question tokens
(`IndexError` when fewer than two are given) and drops every fact list that
contains `("P31", "Q5")` when the lowercased question beginning is one of
the templates. -/
def filter_triplets (entity_triplets : List (List WikiFact)) (question_tokens : List String) :
    Except PyErr (List (List WikiFact)) :=
  match question_tokens with
  | t0 :: t1 :: _ =>
    let question_begin := pyLower t0 ++ " " ++ pyLower t1
    .ok (entity_triplets.filter fun triplets_for_entity =>
      !(what_is_templates.contains question_begin &&
        triplets_for_entity.any fun triplet => triplet.1 == "P31" && triplet.2 == "Q5"))
  | _ => .error .indexError

namespace EntityLinker

/-- The candidate-generation and ranking part of `__call__` (everything
before `extract_triplets_from_wiki`): the empty mention (Python
`if not entity`) short-circuits to the sentinel with an empty confidence
list; otherwise the three tiers run in order.  Note that the tier-2 branch
of the source never assigns `confidences`, which therefore keeps its
initial value `[]`. -/
def preFilter (L : EntityLinker) (entity : String) :
    Except PyErr (List String × List ℚ) :=
  if pyLen entity = 0 then .ok (["None"], [])
  else
    let srtd_cand_ent := sortDesc (fun c => c.e2) (L.find_candidate_entities entity)
    if 0 < srtd_cand_ent.length then
      .ok (srtd_cand_ent.map (·.e1), srtd_cand_ent.map fun _ => (1 : ℚ))
    else
      let srtd2 := sortDesc (fun c => c.e2) (L.substring_entity_search entity).dedup
      if 0 < srtd2.length then
        .ok (srtd2.map (·.e1), [])
      else
        match L.fuzzy_entity_search entity with
        | .error e => .error e
        | .ok fcands =>
          let srtd3 := sortDesc (fun p => p.2) fcands.dedup
          if 0 < srtd3.length then
            .ok (srtd3.map (fun p => p.1.e1), srtd3.map fun p => (p.2 : ℚ) / 100)
          else
            .ok (["None"], [0])

/-- The ranked identifiers fed through `extract_triplets_from_wiki`,
together with the confidences: the state of `__call__` just before the
plausibility filter. -/
def pipeline (L : EntityLinker) (entity : String) :
    Except PyErr (List (List WikiFact) × List ℚ) :=
  match L.preFilter entity with
  | .error e => .error e
  | .ok (wiki_entities, confidences) =>
    .ok (L.extract_triplets_from_wiki wiki_entities, confidences)

/-- `__call__` (resolve): run the pipeline, then the filter.  The source
assigns `filtered_entity_triplets` only inside `if self.rule_filter_entities:`
but returns it unconditionally, so a linker constructed with
`rule_filter_entities=False` raises `UnboundLocalError`. -/
def resolve (L : EntityLinker) (entity : String) (question_tokens : List String) :
    Except PyErr (List (List WikiFact) × List ℚ) :=
  match L.pipeline entity with
  | .error e => .error e
  | .ok (entity_triplets, confidences) =>
    if L.rule_filter_entities then
      match filter_triplets entity_triplets question_tokens with
      | .error e => .error e
      | .ok filtered_entity_triplets => .ok (filtered_entity_triplets, confidences)
    else
      .error .unboundLocal

end EntityLinker

/-- The candidate generator as the specification describes Tier 1: the mask
bit selects, per position, the original token (bit `'0'`) or its lemma (bit
`'1'`).  This is the behavior the source's `mask[i] == 0` comparison (see
`pyCharEqIntZero`) fails to implement; the definition exists only to exhibit
that divergence and is compared against
`EntityLinker.find_candidate_entities`. -/
def findCandidateEntitiesSpec (L : EntityLinker) (entity : String) : List Candidate :=
  let base := (L.name_to_q.lookup entity).getD []
  let entity_split := pySplit entity
  if entity_split.length < 6 && L.lemmatize then
    let entity_lemm_tokens := entity_split.map L.morph
    base ++ (pyMasks entity_split.length).flatMap fun mask =>
      let entity_lemm := pyJoin " " ((List.range entity_split.length).map fun i =>
        if mask.getD i '0' = '0' then entity_split.getD i ""
        else entity_lemm_tokens.getD i "")
      if entity_lemm ≠ entity then (L.name_to_q.lookup entity_lemm).getD [] else []
  else base

/-! ### Concrete stores and linkers used to evaluate the embedding -/

/-- A lemmatizer for the examples: maps the plural tokens to their singular. -/
def mor : String → String :=
  fun s => if s = "cats" then "cat" else if s = "dogs" then "dog" else s

/-- A similarity collaborator that scores everything 0. -/
def fz : String → String → Int := fun _ _ => 0

/-- A similarity collaborator that scores everything 60. -/
def fz60 : String → String → Int := fun _ _ => 60

/-- A linker constructed with `rule_filter_entities=False`. -/
def elOff : EntityLinker :=
  { name_to_q := [], wikidata := [], morph := fun s => s, fuzz := fz,
    lemmatize := true, debug := false, rule_filter_entities := false }

/-- A linker in the default configuration over empty stores. -/
def elOn : EntityLinker :=
  { name_to_q := [], wikidata := [], morph := fun s => s, fuzz := fz,
    lemmatize := true, debug := false, rule_filter_entities := true }

/-- A store on which the mention "AB" misses Tier 1 and hits Tier 2. -/
def elC2 : EntityLinker :=
  { name_to_q := [("abc", [⟨"abc", "Q1", 1⟩])],
    wikidata := [("Q1", [("P0", "Q0")])],
    morph := fun s => s, fuzz := fz,
    lemmatize := true, debug := false, rule_filter_entities := true }

/-- A store holding the partially lemmatized key "cat dogs". -/
def elC3 : EntityLinker :=
  { name_to_q := [("cat dogs", [⟨"cat dogs", "Q7", 3⟩])], wikidata := [],
    morph := mor, fuzz := fz,
    lemmatize := true, debug := false, rule_filter_entities := true }

/-- A store on which the mention "cats" reaches its key "cat" through both
lemma masks, duplicating the candidate. -/
def elC9 : EntityLinker :=
  { name_to_q := [("cat", [⟨"cat", "Q2", 5⟩])], wikidata := [],
    morph := mor, fuzz := fz,
    lemmatize := true, debug := false, rule_filter_entities := true }

/-- A fact store holding a key without the reserved prefix and one with it. -/
def elW : EntityLinker :=
  { name_to_q := [], wikidata := [("R1", [("P1", "Q1")]), ("Q9", [("P2", "Q2")])],
    morph := fun s => s, fuzz := fz,
    lemmatize := true, debug := false, rule_filter_entities := true }

/-- A store whose key "abcd" passes the fuzzy length-ratio gate for the
mention "abc" under the constant-60 similarity collaborator. -/
def elFz : EntityLinker :=
  { name_to_q := [("abcd", [⟨"abcd", "Q3", 2⟩])], wikidata := [],
    morph := fun s => s, fuzz := fz60,
    lemmatize := true, debug := false, rule_filter_entities := true }

/-! ### Helper lemmas -/

theorem length_insertDesc (key : α → Int) (x : α) (l : List α) :
    (insertDesc key x l).length = l.length + 1 := by
  induction l with
  | nil => rfl
  | cons y ys ih =>
    simp only [insertDesc]
    split
    · simp
    · simp [ih]

theorem length_sortDesc (key : α → Int) (l : List α) :
    (sortDesc key l).length = l.length := by
  induction l with
  | nil => rfl
  | cons x xs ih => simp [sortDesc, length_insertDesc, ih]

theorem perm_insertDesc (key : α → Int) (x : α) (l : List α) :
    (insertDesc key x l).Perm (x :: l) := by
  induction l with
  | nil => exact List.Perm.refl _
  | cons y ys ih =>
    simp only [insertDesc]
    split
    · exact List.Perm.refl _
    · exact (ih.cons y).trans (List.Perm.swap x y ys)

theorem perm_sortDesc (key : α → Int) (l : List α) :
    (sortDesc key l).Perm l := by
  induction l with
  | nil => exact List.Perm.refl _
  | cons x xs ih => exact (perm_insertDesc key x (sortDesc key xs)).trans (ih.cons x)

theorem nodup_sortDesc_dedup [DecidableEq α] (key : α → Int) (l : List α) :
    (sortDesc key l.dedup).Nodup :=
  (perm_sortDesc key l.dedup).nodup_iff.mpr l.nodup_dedup

theorem sortDesc_eq_nil_iff (key : α → Int) (l : List α) :
    sortDesc key l = [] ↔ l = [] := by
  constructor
  · intro h
    have := length_sortDesc key l
    rw [h] at this
    exact List.length_eq_zero.mp this.symm
  · rintro rfl
    rfl

theorem fuzzyLoop_eq (L : EntityLinker) (e : String) (wl : Nat) (h : wl ≠ 0)
    (l : List (String × List Candidate)) :
    EntityLinker.fuzzyLoop L e wl l = .ok (l.flatMap fun p =>
      if wl < 2 * pyLen p.1 ∧ 2 * pyLen p.1 < 3 * wl then
        if 50 < L.fuzz p.1 e then
          ((L.name_to_q.lookup p.1).getD []).map fun cand => (cand, L.fuzz e cand.e0)
        else []
      else []) := by
  induction l with
  | nil => rfl
  | cons p rest ih =>
    simp only [EntityLinker.fuzzyLoop, if_neg h, ih, List.flatMap_cons]

theorem fuzzy_entity_search_eq (L : EntityLinker) (e : String) (h : pyLen e ≠ 0) :
    L.fuzzy_entity_search e = .ok (L.name_to_q.flatMap fun p =>
      if pyLen e < 2 * pyLen p.1 ∧ 2 * pyLen p.1 < 3 * pyLen e then
        if 50 < L.fuzz p.1 e then
          ((L.name_to_q.lookup p.1).getD []).map fun cand => (cand, L.fuzz e cand.e0)
        else []
      else []) :=
  fuzzyLoop_eq L e (pyLen e) h L.name_to_q

theorem preFilter_ok (L : EntityLinker) (e : String) :
    ∃ p, L.preFilter e = .ok p := by
  unfold EntityLinker.preFilter
  split
  · exact ⟨_, rfl⟩
  · rename_i hne
    rw [fuzzy_entity_search_eq L e hne]
    dsimp only
    split
    · exact ⟨_, rfl⟩
    · split
      · exact ⟨_, rfl⟩
      · split
        · exact ⟨_, rfl⟩
        · exact ⟨_, rfl⟩

theorem pipeline_ok (L : EntityLinker) (e : String) :
    ∃ facts confs, L.pipeline e = .ok (facts, confs) := by
  obtain ⟨⟨ids, confs⟩, hp⟩ := preFilter_ok L e
  exact ⟨_, _, by rw [EntityLinker.pipeline, hp]⟩

theorem filter_triplets_ok (triplets : List (List WikiFact)) (t0 t1 : String)
    (rest : List String) :
    filter_triplets triplets (t0 :: t1 :: rest) =
      .ok (triplets.filter fun triplets_for_entity =>
        !(what_is_templates.contains (pyLower t0 ++ " " ++ pyLower t1) &&
          triplets_for_entity.any fun triplet => triplet.1 == "P31" && triplet.2 == "Q5")) :=
  rfl

theorem resolve_classify (L : EntityLinker) (e : String) (t : List String) :
    (L.rule_filter_entities = false → L.resolve e t = .error .unboundLocal) ∧
    (L.rule_filter_entities = true → 2 ≤ t.length →
      ∃ out, L.resolve e t = .ok out) ∧
    (L.rule_filter_entities = true → t.length < 2 →
      L.resolve e t = .error .indexError) := by
  obtain ⟨facts, confs, hp⟩ := pipeline_ok L e
  refine ⟨fun hf => ?_, fun hf hlen => ?_, fun hf hlen => ?_⟩ <;>
    (unfold EntityLinker.resolve; rw [hp]; dsimp only)
  · simp [hf]
  · match t, hlen with
    | t0 :: t1 :: rest, _ =>
      simp only [hf, if_true]
      rw [filter_triplets_ok]
      exact ⟨_, rfl⟩
  · match t, hlen with
    | [], _ => simp [hf, filter_triplets]
    | [t0], _ => simp [hf, filter_triplets]

theorem preFilter_cases (L : EntityLinker) (e : String) (he : pyLen e ≠ 0) :
    ∃ ids confs, L.preFilter e = .ok (ids, confs) ∧
      (L.find_candidate_entities e ≠ [] →
        ids.length = confs.length ∧ ∀ c ∈ confs, c = 1) ∧
      (L.find_candidate_entities e = [] → L.substring_entity_search e ≠ [] →
        confs = []) ∧
      (L.find_candidate_entities e = [] → L.substring_entity_search e = [] →
        ids.length = confs.length) := by
  unfold EntityLinker.preFilter
  rw [if_neg he, fuzzy_entity_search_eq L e he]
  dsimp only
  by_cases h1 : L.find_candidate_entities e = []
  · rw [h1]
    have hs1 : ¬(0 < (sortDesc (fun c => c.e2) ([] : List Candidate)).length) := by decide
    rw [if_neg hs1]
    by_cases h2 : L.substring_entity_search e = []
    · rw [h2]
      have hs2 : ¬(0 < (sortDesc (fun c => c.e2) ([] : List Candidate).dedup).length) := by
        decide
      rw [if_neg hs2]
      split
      · refine ⟨_, _, rfl, fun h => absurd rfl h, fun _ h => absurd rfl h, fun _ _ => ?_⟩
        simp
      · exact ⟨_, _, rfl, fun h => absurd rfl h, fun _ h => absurd rfl h, fun _ _ => rfl⟩
    · have hs2 : 0 < (sortDesc (fun c => c.e2) (L.substring_entity_search e).dedup).length := by
        rw [length_sortDesc]
        exact List.length_pos.mpr (fun hd => h2 ((List.dedup_eq_nil _).mp hd))
      rw [if_pos hs2]
      exact ⟨_, _, rfl, fun h => absurd rfl h, fun _ _ => rfl, fun _ h => absurd h h2⟩
  · have hs1 : 0 < (sortDesc (fun c => c.e2) (L.find_candidate_entities e)).length := by
      rw [length_sortDesc]
      exact List.length_pos.mpr h1
    rw [if_pos hs1]
    refine ⟨_, _, rfl, fun _ => ⟨by simp, ?_⟩, fun h => absurd h h1, fun h => absurd h h1⟩
    intro c hc
    simp only [List.mem_map] at hc
    obtain ⟨x, _, hx⟩ := hc
    exact hx.symm

/-! ### Claim theorems -/

/-- C1: the claim states that with the plausibility filter disabled
(`rule_filter_entities = false`) `resolve` returns the unfiltered fact
lists paired with the confidences.  The code contradicts this: the local
`filtered_entity_triplets` is assigned only inside the
`if self.rule_filter_entities:` branch yet returned unconditionally, so
every call with the filter disabled raises `UnboundLocalError` instead of
returning — a slip in the code, since the configuration flag exists
precisely to skip the filter. -/
theorem resolve_filter_disabled_errors (L : EntityLinker) (e : String)
    (t : List String) (h : L.rule_filter_entities = false) :
    L.resolve e t = .error .unboundLocal :=
  (resolve_classify L e t).1 h

/-- Witness: a concrete linker built with the filter disabled raises on a
well-formed call. -/
theorem resolve_filter_disabled_errors_witness :
    EntityLinker.resolve elOff "x" ["a", "b"] = .error .unboundLocal :=
  resolve_filter_disabled_errors elOff "x" ["a", "b"] rfl

/-- C4 counterexample: the claim says a short `question_tokens` with the
filter enabled is the only condition under which `resolve` fails; but a
linker with the filter disabled fails on every call, even with two
question tokens, so it is not the only one. -/
theorem resolve_failure_not_only_cex :
    EntityLinker.resolve elOff "x" ["a", "b"] = .error .unboundLocal ∧
    2 ≤ (["a", "b"] : List String).length ∧
    elOff.rule_filter_entities = false :=
  ⟨rfl, by decide, rfl⟩

/-- C4 amended: when the plausibility filter is enabled, `resolve` fails
(with the `IndexError` of reading `question_tokens[0]`/`[1]`) exactly when
`question_tokens` has fewer than 2 elements, and returns normally
otherwise for any mention and any store; when the filter is disabled,
`resolve` never returns at all (see the unbound-variable bug of C1), so
the short-token condition is not the only failure. -/
theorem resolve_failure_condition_amended (L : EntityLinker) (e : String)
    (t : List String) (h : L.rule_filter_entities = true) :
    (2 ≤ t.length → ∃ out, L.resolve e t = .ok out) ∧
    (t.length < 2 → L.resolve e t = .error .indexError) :=
  ⟨(resolve_classify L e t).2.1 h, (resolve_classify L e t).2.2 h⟩

/-- Witness for the amended C4 at a concrete linker and token lists. -/
theorem resolve_failure_condition_amended_witness :
    ((2 ≤ (["a", "b"] : List String).length →
      ∃ out, EntityLinker.resolve elOn "x" ["a", "b"] = .ok out) ∧
     ((["a", "b"] : List String).length < 2 →
      EntityLinker.resolve elOn "x" ["a", "b"] = .error .indexError)) ∧
    ((2 ≤ (["a"] : List String).length →
      ∃ out, EntityLinker.resolve elOn "x" ["a"] = .ok out) ∧
     ((["a"] : List String).length < 2 →
      EntityLinker.resolve elOn "x" ["a"] = .error .indexError)) :=
  ⟨resolve_failure_condition_amended elOn "x" ["a", "b"] rfl,
   resolve_failure_condition_amended elOn "x" ["a"] rfl⟩

/-- C10: the division `len(title) / len(entity)` inside the fuzzy tier can
never divide by zero through `resolve`: the empty mention short-circuits
to the sentinel before any tier runs, so Tier 3 only ever sees a mention
of positive length.  Every call lands in one of the three listed outcomes,
none of which is the `ZeroDivisionError` of the division branch. -/
theorem resolve_never_div_zero (L : EntityLinker) (e : String) (t : List String) :
    (∃ out, L.resolve e t = .ok out) ∨
    L.resolve e t = .error .indexError ∨
    L.resolve e t = .error .unboundLocal := by
  obtain ⟨h1, h2, h3⟩ := resolve_classify L e t
  cases hf : L.rule_filter_entities with
  | false => exact .inr (.inr (h1 hf))
  | true =>
    by_cases hlen : 2 ≤ t.length
    · exact .inl (h2 hf hlen)
    · exact .inr (.inl (h3 hf (by omega)))

/-- C5: in the default configuration (filter enabled), resolving the empty
mention with at least two question tokens returns the single sentinel slot
`[[]]` — the identifier "None" does not start with the reserved prefix
"Q", so it never yields facts — and an empty confidence list (length 0,
not `[0.0]`). -/
theorem resolve_empty_mention (L : EntityLinker) (t0 t1 : String)
    (rest : List String) (h : L.rule_filter_entities = true) :
    L.resolve "" (t0 :: t1 :: rest) = .ok ([[]], []) := by
  have hq : pyStartsWith "None" "Q" = false := by decide
  have hpre : L.preFilter "" = .ok (["None"], []) := rfl
  have hext : L.extract_triplets_from_wiki ["None"] = [[]] := by
    simp [EntityLinker.extract_triplets_from_wiki, hq]
  unfold EntityLinker.resolve EntityLinker.pipeline
  rw [hpre]
  dsimp only
  rw [hext]
  simp only [h, if_true]
  rw [filter_triplets_ok]
  simp

/-- Witness: the empty mention on a concrete linker with two question
tokens. -/
theorem resolve_empty_mention_witness :
    EntityLinker.resolve elOn "" ["a", "b"] = .ok ([[]], []) :=
  resolve_empty_mention elOn "a" "b" [] rfl

/-- C6: `filter_triplets` drops a fact list exactly when the lowercased
first two question tokens joined by a space belong to the fixed template
set and the list contains the fact `("P31", "Q5")`; every other fact list
is kept unchanged, and the order of survivors is preserved (the output is
a sublist of the input). -/
theorem filter_triplets_drops_humans (triplets : List (List WikiFact))
    (t0 t1 : String) (rest : List String) (l : List WikiFact) :
    ∃ out, filter_triplets triplets (t0 :: t1 :: rest) = .ok out ∧
      out.Sublist triplets ∧
      (l ∈ out ↔ l ∈ triplets ∧
        ¬((pyLower t0 ++ " " ++ pyLower t1) ∈ what_is_templates ∧
          ("P31", "Q5") ∈ l)) := by
  refine ⟨_, filter_triplets_ok triplets t0 t1 rest, List.filter_sublist _, ?_⟩
  rw [List.mem_filter]
  refine and_congr_right fun _ => ?_
  rw [Bool.not_eq_true', Bool.eq_false_iff, Ne, Bool.and_eq_true]
  refine not_congr (and_congr List.elem_iff ?_)
  rw [List.any_eq_true]
  constructor
  · rintro ⟨tr, htr, he⟩
    simp only [Bool.and_eq_true, beq_iff_eq] at he
    have : tr = ("P31", "Q5") := Prod.ext he.1 he.2
    rwa [this] at htr
  · intro hmem
    exact ⟨("P31", "Q5"), hmem, by decide⟩

/-- Witness for C6: the filter drops the human-typed candidate of a
template question and keeps the non-human one, in order. -/
theorem filter_triplets_drops_humans_witness :
    ∃ out, filter_triplets [[("P31", "Q5")], [("P31", "Q6")]] ["что", "такое"] = .ok out ∧
      out.Sublist [[("P31", "Q5")], [("P31", "Q6")]] ∧
      ([("P31", "Q5")] ∈ out ↔ [("P31", "Q5")] ∈ [[("P31", "Q5")], [("P31", "Q6")]] ∧
        ¬((pyLower "что" ++ " " ++ pyLower "такое") ∈ what_is_templates ∧
          ("P31", "Q5") ∈ [("P31", "Q5")])) :=
  filter_triplets_drops_humans [[("P31", "Q5")], [("P31", "Q6")]] "что" "такое" []
    [("P31", "Q5")]

/-- C7: the fact retriever is position-aligned with its input — the output
has the input's length, and slot `i` holds the fact-store entry of
identifier `i` exactly when that identifier is a `wikidata` key and starts
with the reserved prefix "Q", and the empty list otherwise. -/
theorem extract_triplets_aligned (L : EntityLinker) (ids : List String)
    (i : Nat) (h : i < ids.length) :
    (L.extract_triplets_from_wiki ids).length = ids.length ∧
    (L.extract_triplets_from_wiki ids).getD i [] =
      (if (L.wikidata.lookup ids[i]).isSome = true ∧ pyStartsWith ids[i] "Q" = true
       then (L.wikidata.lookup ids[i]).getD [] else []) := by
  constructor
  · simp [EntityLinker.extract_triplets_from_wiki]
  · have hlen : i < (L.extract_triplets_from_wiki ids).length := by
      simpa [EntityLinker.extract_triplets_from_wiki] using h
    rw [List.getD_eq_getElem _ _ hlen]
    simp only [EntityLinker.extract_triplets_from_wiki, List.getElem_map,
      Bool.and_eq_true]

/-- Witness for C7: identifier "R1" is a key of the concrete fact store but
does not start with "Q", so its slot is empty; identifier "Q9" is a key
with the prefix, so its slot holds its entry. -/
theorem extract_triplets_aligned_witness :
    (elW.extract_triplets_from_wiki ["R1", "Q9"]).getD 0 [] = [] ∧
    (elW.extract_triplets_from_wiki ["R1", "Q9"]).getD 1 [] = [("P2", "Q2")] ∧
    (elW.wikidata.lookup "R1").isSome = true := by
  have h0 := (extract_triplets_aligned elW ["R1", "Q9"] 0 (by decide)).2
  have h1 := (extract_triplets_aligned elW ["R1", "Q9"] 1 (by decide)).2
  refine ⟨?_, ?_, rfl⟩
  · rw [h0]; decide
  · rw [h1]; decide

/-- C2 counterexample: on a store where Tier 1 misses and Tier 2 hits, the
pre-filter pipeline returns one fact list but an empty confidence list —
the source never assigns `confidences` in the Tier-2 branch, so it keeps
its initial value `[]` and the claimed alignment (and the claimed uniform
1.0 confidence for Tier 2) fails. -/
theorem tier2_alignment_cex :
    elC2.pipeline "AB" = .ok ([[("P0", "Q0")]], []) ∧
    ¬(([[("P0", "Q0")]] : List (List WikiFact)).length = ([] : List ℚ).length) :=
  ⟨rfl, by decide⟩

/-- C2 amended: for every non-empty mention, the pre-filter fact lists and
confidences are aligned with all confidences 1.0 when Tier 1 fires, and
aligned when Tiers 1 and 2 both miss (Tier 3 or the sentinel); but when
Tier 1 misses and Tier 2 fires, the confidence list is empty, so the
alignment invariant does not hold for Tier 2. -/
theorem prefilter_alignment_amended (L : EntityLinker) (e : String)
    (he : pyLen e ≠ 0) :
    ∃ facts confs, L.pipeline e = .ok (facts, confs) ∧
      (L.find_candidate_entities e ≠ [] →
        facts.length = confs.length ∧ ∀ c ∈ confs, c = 1) ∧
      (L.find_candidate_entities e = [] → L.substring_entity_search e ≠ [] →
        confs = []) ∧
      (L.find_candidate_entities e = [] → L.substring_entity_search e = [] →
        facts.length = confs.length) := by
  obtain ⟨ids, confs, hpre, hA, hB, hC⟩ := preFilter_cases L e he
  have hpipe : L.pipeline e = .ok (L.extract_triplets_from_wiki ids, confs) := by
    rw [EntityLinker.pipeline, hpre]
  have hlen : (L.extract_triplets_from_wiki ids).length = ids.length := by
    simp [EntityLinker.extract_triplets_from_wiki]
  refine ⟨_, _, hpipe, fun h => ?_, hB, fun h1 h2 => ?_⟩
  · obtain ⟨hl, hc⟩ := hA h
    exact ⟨hlen.trans hl, hc⟩
  · exact hlen.trans (hC h1 h2)

/-- Witness for the amended C2 at the Tier-2 store. -/
theorem prefilter_alignment_amended_witness :
    ∃ facts confs, elC2.pipeline "AB" = .ok (facts, confs) ∧
      (elC2.find_candidate_entities "AB" ≠ [] →
        facts.length = confs.length ∧ ∀ c ∈ confs, c = 1) ∧
      (elC2.find_candidate_entities "AB" = [] →
        elC2.substring_entity_search "AB" ≠ [] → confs = []) ∧
      (elC2.find_candidate_entities "AB" = [] →
        elC2.substring_entity_search "AB" = [] →
        facts.length = confs.length) :=
  prefilter_alignment_amended elC2 "AB" (by decide)

/-- C9 counterexample: a one-token mention whose lemma is an index key
reaches that key through both of the two masks, so Tier 1 hands the ranker
the same candidate twice; the ranker only sorts Tier-1 results (no
`list(set(...))` as in Tiers 2 and 3) and returns structurally equal
duplicates. -/
theorem tier1_duplicates_cex :
    sortDesc (fun c => c.e2) (elC9.find_candidate_entities "cats") =
      [⟨"cat", "Q2", 5⟩, ⟨"cat", "Q2", 5⟩] ∧
    ¬([⟨"cat", "Q2", 5⟩, ⟨"cat", "Q2", 5⟩] : List Candidate).Nodup ∧
    elC9.preFilter "cats" = .ok (["Q2", "Q2"], [1, 1]) :=
  ⟨rfl, by decide, rfl⟩

/-- C9 amended: the ranker deduplicates Tier-2 and Tier-3 candidate lists
(by structural equality, before sorting), but Tier-1 results are only
sorted, never deduplicated, so exact/lemma duplicates persist. -/
theorem tier23_dedup_amended (L : EntityLinker) (e : String)
    (r : List (Candidate × Int)) (_hr : L.fuzzy_entity_search e = .ok r) :
    (sortDesc (fun c => c.e2) (L.substring_entity_search e).dedup).Nodup ∧
    (sortDesc (fun p => p.2) r.dedup).Nodup :=
  ⟨nodup_sortDesc_dedup _ _, nodup_sortDesc_dedup _ _⟩

/-- Witness for the amended C9 on a concrete store and mention. -/
theorem tier23_dedup_amended_witness :
    (sortDesc (fun c => c.e2) (elC9.substring_entity_search "x").dedup).Nodup ∧
    (sortDesc (fun p => p.2) ([] : List (Candidate × Int)).dedup).Nodup :=
  tier23_dedup_amended elC9 "x" [] rfl

/-- C3: the claim (and the spec) say each of the 2^k masks selects, per
position, the original token or its lemma, so a variant lemmatizing only a
strict subset of tokens is looked up.  The code compares the mask
character `'0'`/`'1'` to the integer `0` (`mask[i] == 0`), which in Python
is always false, so every mask rebuilds the fully lemmatized string and
partially lemmatized variants are never looked up: on a store whose only
key is the half-lemmatized "cat dogs", the code finds nothing, while the
specified per-position selection (`findCandidateEntitiesSpec`) finds the
key's candidate. -/
theorem lemma_mask_variants_dead :
    elC3.find_candidate_entities "cats dogs" = [] ∧
    findCandidateEntitiesSpec elC3 "cats dogs" = [⟨"cat dogs", "Q7", 3⟩] :=
  ⟨rfl, rfl⟩

/-- C8: Tier 3 scores no key whose length ratio `len(key)/len(mention)` is
≤ 0.5 or ≥ 1.5 (the integer gate used by the code is exactly that rational
condition); a surviving key's candidates are accepted exactly when the
key-vs-mention score exceeds 50; each accepted pair carries the second
score — mention vs the candidate's own surface field (element 0) — and
its confidence `score / 100` lies in `[0, 1]` whenever the similarity
collaborator honors its `[0, 100]` contract. -/
theorem fuzzy_search_spec (L : EntityLinker) (e : String) (he : pyLen e ≠ 0)
    (hf : ∀ a b, 0 ≤ L.fuzz a b ∧ L.fuzz a b ≤ 100) :
    ∃ r, L.fuzzy_entity_search e = .ok r ∧
      r = (L.name_to_q.flatMap fun p =>
        if pyLen e < 2 * pyLen p.1 ∧ 2 * pyLen p.1 < 3 * pyLen e then
          if 50 < L.fuzz p.1 e then
            ((L.name_to_q.lookup p.1).getD []).map fun cand => (cand, L.fuzz e cand.e0)
          else []
        else []) ∧
      (∀ tl wl : Nat, wl ≠ 0 →
        ((wl < 2 * tl ∧ 2 * tl < 3 * wl) ↔
          ((1 : ℚ) / 2 < (tl : ℚ) / (wl : ℚ) ∧ (tl : ℚ) / (wl : ℚ) < 3 / 2))) ∧
      (∀ q ∈ r, q.2 = L.fuzz e q.1.e0 ∧
        0 ≤ (q.2 : ℚ) / 100 ∧ (q.2 : ℚ) / 100 ≤ 1) := by
  refine ⟨_, fuzzy_entity_search_eq L e he, rfl, ?_, ?_⟩
  · intro tl wl hw
    have hw' : (0 : ℚ) < (wl : ℚ) := by
      exact_mod_cast Nat.pos_of_ne_zero hw
    have h2 : (0 : ℚ) < 2 := by norm_num
    rw [div_lt_div_iff₀ h2 hw', div_lt_div_iff₀ hw' h2, one_mul]
    constructor
    · rintro ⟨ha, hb⟩
      have ha' : (wl : ℚ) < 2 * (tl : ℚ) := by exact_mod_cast ha
      have hb' : 2 * (tl : ℚ) < 3 * (wl : ℚ) := by exact_mod_cast hb
      exact ⟨by linarith, by linarith⟩
    · rintro ⟨ha, hb⟩
      have ha' : (wl : ℚ) < 2 * (tl : ℚ) := by linarith
      have hb' : 2 * (tl : ℚ) < 3 * (wl : ℚ) := by linarith
      exact ⟨by exact_mod_cast ha', by exact_mod_cast hb'⟩
  · intro q hq
    rw [List.mem_flatMap] at hq
    obtain ⟨p, _, hq'⟩ := hq
    split at hq'
    · split at hq'
      · rw [List.mem_map] at hq'
        obtain ⟨cand, _, rfl⟩ := hq'
        refine ⟨rfl, ?_, ?_⟩
        · apply div_nonneg _ (by norm_num)
          exact_mod_cast (hf e cand.e0).1
        · rw [div_le_one (by norm_num)]
          exact_mod_cast (hf e cand.e0).2
      · simp at hq'
    · simp at hq'

/-- Witness for C8: the concrete store `elFz` with the constant-60
collaborator, on the mention "abc" whose single key "abcd" passes the
length-ratio gate. -/
theorem fuzzy_search_spec_witness :
    ∃ r, elFz.fuzzy_entity_search "abc" = .ok r ∧
      r = (elFz.name_to_q.flatMap fun p =>
        if pyLen "abc" < 2 * pyLen p.1 ∧ 2 * pyLen p.1 < 3 * pyLen "abc" then
          if 50 < elFz.fuzz p.1 "abc" then
            ((elFz.name_to_q.lookup p.1).getD []).map fun cand =>
              (cand, elFz.fuzz "abc" cand.e0)
          else []
        else []) ∧
      (∀ tl wl : Nat, wl ≠ 0 →
        ((wl < 2 * tl ∧ 2 * tl < 3 * wl) ↔
          ((1 : ℚ) / 2 < (tl : ℚ) / (wl : ℚ) ∧ (tl : ℚ) / (wl : ℚ) < 3 / 2))) ∧
      (∀ q ∈ r, q.2 = elFz.fuzz "abc" q.1.e0 ∧
        0 ≤ (q.2 : ℚ) / 100 ∧ (q.2 : ℚ) / 100 ≤ 1) :=
  fuzzy_search_spec elFz "abc" (by decide)
    (fun a b => ⟨by norm_num [elFz, fz60], by norm_num [elFz, fz60]⟩)
